import Mathlib

/-!
Verification of the SkyPulse air-quality analytics core
(`src/python-analytics/analytics_service.py` and
`src/python-analytics/database_analytics.py`).

Numeric values are embedded as exact rationals (`ℚ`); timestamps as
integers (`ℤ`); values that can be missing (pandas `NaN`/`NaT`, SQL `NULL`)
as `Option`.  Python's builtin `round` rounds halves to the nearest even
integer, which `pythonRound` reproduces exactly.
-/

/-- Python's `round(x)` (banker's rounding): nearest integer, halves to even. -/
def pythonRound (x : ℚ) : ℤ :=
  if Int.fract x < 1 / 2 then ⌊x⌋
  else if 1 / 2 < Int.fract x then ⌊x⌋ + 1
  else if Even ⌊x⌋ then ⌊x⌋ else ⌊x⌋ + 1

lemma floor_le_pythonRound (x : ℚ) : ⌊x⌋ ≤ pythonRound x := by
  unfold pythonRound; split_ifs <;> omega

lemma pythonRound_le_floor_add_one (x : ℚ) : pythonRound x ≤ ⌊x⌋ + 1 := by
  unfold pythonRound; split_ifs <;> omega

lemma pythonRound_intCast (n : ℤ) : pythonRound (n : ℚ) = n := by
  unfold pythonRound
  rw [Int.fract_intCast, Int.floor_intCast]
  norm_num

lemma pythonRound_mono {x y : ℚ} (h : x ≤ y) : pythonRound x ≤ pythonRound y := by
  rcases eq_or_lt_of_le (Int.floor_le_floor h) with hf | hf
  · have hfr : Int.fract x ≤ Int.fract y := by
      unfold Int.fract
      rw [hf]
      have : (⌊y⌋ : ℚ) = (⌊y⌋ : ℚ) := rfl
      linarith
    unfold pythonRound
    split_ifs with h1 h2 h3 h4 h5 h6 h7 h8 h9 <;>
      first
        | omega
        | (exfalso; linarith)
        | (simp only [Int.even_iff] at *; omega)
  · calc pythonRound x ≤ ⌊x⌋ + 1 := pythonRound_le_floor_add_one x
      _ ≤ ⌊y⌋ := hf
      _ ≤ pythonRound y := floor_le_pythonRound y

/-- If `x ≤ n` for an integer `n` then `pythonRound x ≤ n`. -/
lemma pythonRound_le_int {x : ℚ} {n : ℤ} (h : x ≤ (n : ℚ)) : pythonRound x ≤ n := by
  have := pythonRound_mono h
  rwa [pythonRound_intCast] at this

/-- If `(n : ℚ) ≤ x` for an integer `n` then `n ≤ pythonRound x`. -/
lemma int_le_pythonRound {x : ℚ} {n : ℤ} (h : (n : ℚ) ≤ x) : n ≤ pythonRound x := by
  have := pythonRound_mono h
  rwa [pythonRound_intCast] at this

/-- A halfway value `k + 1/2` rounds to the even neighbour. -/
lemma pythonRound_half (k : ℤ) :
    pythonRound ((k : ℚ) + 1 / 2) = if Even k then k else k + 1 := by
  have hfl : ⌊(k : ℚ) + 1 / 2⌋ = k := by
    rw [Int.floor_eq_iff]
    refine ⟨by linarith, by linarith⟩
  have hfr : Int.fract ((k : ℚ) + 1 / 2) = 1 / 2 := by
    unfold Int.fract
    rw [hfl]
    ring
  unfold pythonRound
  rw [hfl, hfr]
  norm_num

/-- Monotone-compatible chaining through a pair of integer bounds. -/
lemma pythonRound_cross {x y : ℚ} (a b : ℤ) (hx : x ≤ (a : ℚ)) (hab : a ≤ b)
    (hy : (b : ℚ) ≤ y) : pythonRound x ≤ pythonRound y :=
  le_trans (le_trans (pythonRound_le_int hx) hab) (int_le_pythonRound hy)

/-- Evaluation below the midpoint: `n ≤ x < n + 1/2` rounds down to `n`. -/
lemma pythonRound_eq_of_lt_half {x : ℚ} {n : ℤ} (h1 : (n : ℚ) ≤ x)
    (h2 : x < (n : ℚ) + 1 / 2) : pythonRound x = n := by
  have hfl : ⌊x⌋ = n := by
    rw [Int.floor_eq_iff]
    exact ⟨h1, by linarith⟩
  have hfr : Int.fract x < 1 / 2 := by
    unfold Int.fract
    rw [hfl]
    linarith
  unfold pythonRound
  rw [if_pos hfr, hfl]

/-- Evaluation above the midpoint: `n + 1/2 < x < n + 1` rounds up to `n + 1`. -/
lemma pythonRound_eq_of_gt_half {x : ℚ} {n : ℤ} (h1 : (n : ℚ) + 1 / 2 < x)
    (h2 : x < (n : ℚ) + 1) : pythonRound x = n + 1 := by
  have hfl : ⌊x⌋ = n := by
    rw [Int.floor_eq_iff]
    exact ⟨by linarith, by linarith⟩
  have hfr : 1 / 2 < Int.fract x := by
    unfold Int.fract
    rw [hfl]
    linarith
  unfold pythonRound
  rw [if_neg (by linarith), if_pos hfr, hfl]

/-!
## PM2.5 → AQI converter (`calculate_aqi_from_pm25`, analytics_service.py 558–579)
-/

/-- EPA breakpoints for PM2.5, exactly the list in `calculate_aqi_from_pm25`:
`(bp_lo, bp_hi, aqi_lo, aqi_hi)`. -/
def pm25_breakpoints : List (ℚ × ℚ × ℤ × ℤ) :=
  [(0, 12.0, 0, 50),
   (12.1, 35.4, 51, 100),
   (35.5, 55.4, 101, 150),
   (55.5, 150.4, 151, 200),
   (150.5, 250.4, 201, 300),
   (250.5, 350.4, 301, 400),
   (350.5, 500.4, 401, 500)]

/-- The `for bp_lo, bp_hi, aqi_lo, aqi_hi in breakpoints:` scan; the loop falls
through to `return 500`. -/
def scanBreakpoints (c : ℚ) : List (ℚ × ℚ × ℤ × ℤ) → ℤ
  | [] => 500
  | (bpLo, bpHi, aqiLo, aqiHi) :: rest =>
      if bpLo ≤ c ∧ c ≤ bpHi then
        pythonRound ((((aqiHi : ℚ) - (aqiLo : ℚ)) / (bpHi - bpLo)) * (c - bpLo) + (aqiLo : ℚ))
      else scanBreakpoints c rest

/-- `calculate_aqi_from_pm25(pm25)`: `None`/`NaN` or negative input returns 50,
otherwise the breakpoint scan. -/
def calculate_aqi_from_pm25 : Option ℚ → ℤ
  | none => 50
  | some c => if c < 0 then 50 else scanBreakpoints c pm25_breakpoints

/-!
### Piecewise characterisation of the converter

One evaluation lemma per breakpoint row, one for concentrations above the top
breakpoint, and one for the gaps between rows (where the scan falls through to
`return 500`).
-/

lemma aqi_band1 {c : ℚ} (h1 : 0 ≤ c) (h2 : c ≤ 12.0) :
    calculate_aqi_from_pm25 (some c) = pythonRound (50 / 12 * c) := by
  simp only [calculate_aqi_from_pm25, pm25_breakpoints, scanBreakpoints,
    if_neg (not_lt.mpr h1)]
  rw [if_pos ⟨h1, h2⟩]
  congr 1
  push_cast
  ring

lemma aqi_band2 {c : ℚ} (h1 : 12.1 ≤ c) (h2 : c ≤ 35.4) :
    calculate_aqi_from_pm25 (some c) = pythonRound (49 / 23.3 * (c - 12.1) + 51) := by
  have h0 : ¬ c < 0 := by simp only [not_lt]; linarith
  simp only [calculate_aqi_from_pm25, pm25_breakpoints, scanBreakpoints, if_neg h0]
  rw [if_neg (by rintro ⟨-, hb⟩; linarith), if_pos ⟨h1, h2⟩]
  congr 1
  push_cast
  norm_num

lemma aqi_band3 {c : ℚ} (h1 : 35.5 ≤ c) (h2 : c ≤ 55.4) :
    calculate_aqi_from_pm25 (some c) = pythonRound (49 / 19.9 * (c - 35.5) + 101) := by
  have h0 : ¬ c < 0 := by simp only [not_lt]; linarith
  simp only [calculate_aqi_from_pm25, pm25_breakpoints, scanBreakpoints, if_neg h0]
  rw [if_neg (by rintro ⟨-, hb⟩; linarith), if_neg (by rintro ⟨-, hb⟩; linarith),
    if_pos ⟨h1, h2⟩]
  congr 1
  push_cast
  norm_num

lemma aqi_band4 {c : ℚ} (h1 : 55.5 ≤ c) (h2 : c ≤ 150.4) :
    calculate_aqi_from_pm25 (some c) = pythonRound (49 / 94.9 * (c - 55.5) + 151) := by
  have h0 : ¬ c < 0 := by simp only [not_lt]; linarith
  simp only [calculate_aqi_from_pm25, pm25_breakpoints, scanBreakpoints, if_neg h0]
  rw [if_neg (by rintro ⟨-, hb⟩; linarith), if_neg (by rintro ⟨-, hb⟩; linarith),
    if_neg (by rintro ⟨-, hb⟩; linarith), if_pos ⟨h1, h2⟩]
  congr 1
  push_cast
  norm_num

lemma aqi_band5 {c : ℚ} (h1 : 150.5 ≤ c) (h2 : c ≤ 250.4) :
    calculate_aqi_from_pm25 (some c) = pythonRound (99 / 99.9 * (c - 150.5) + 201) := by
  have h0 : ¬ c < 0 := by simp only [not_lt]; linarith
  simp only [calculate_aqi_from_pm25, pm25_breakpoints, scanBreakpoints, if_neg h0]
  rw [if_neg (by rintro ⟨-, hb⟩; linarith), if_neg (by rintro ⟨-, hb⟩; linarith),
    if_neg (by rintro ⟨-, hb⟩; linarith), if_neg (by rintro ⟨-, hb⟩; linarith),
    if_pos ⟨h1, h2⟩]
  congr 1
  push_cast
  norm_num

lemma aqi_band6 {c : ℚ} (h1 : 250.5 ≤ c) (h2 : c ≤ 350.4) :
    calculate_aqi_from_pm25 (some c) = pythonRound (99 / 99.9 * (c - 250.5) + 301) := by
  have h0 : ¬ c < 0 := by simp only [not_lt]; linarith
  simp only [calculate_aqi_from_pm25, pm25_breakpoints, scanBreakpoints, if_neg h0]
  rw [if_neg (by rintro ⟨-, hb⟩; linarith), if_neg (by rintro ⟨-, hb⟩; linarith),
    if_neg (by rintro ⟨-, hb⟩; linarith), if_neg (by rintro ⟨-, hb⟩; linarith),
    if_neg (by rintro ⟨-, hb⟩; linarith), if_pos ⟨h1, h2⟩]
  congr 1
  push_cast
  norm_num

lemma aqi_band7 {c : ℚ} (h1 : 350.5 ≤ c) (h2 : c ≤ 500.4) :
    calculate_aqi_from_pm25 (some c) = pythonRound (99 / 149.9 * (c - 350.5) + 401) := by
  have h0 : ¬ c < 0 := by simp only [not_lt]; linarith
  simp only [calculate_aqi_from_pm25, pm25_breakpoints, scanBreakpoints, if_neg h0]
  rw [if_neg (by rintro ⟨-, hb⟩; linarith), if_neg (by rintro ⟨-, hb⟩; linarith),
    if_neg (by rintro ⟨-, hb⟩; linarith), if_neg (by rintro ⟨-, hb⟩; linarith),
    if_neg (by rintro ⟨-, hb⟩; linarith), if_neg (by rintro ⟨-, hb⟩; linarith),
    if_pos ⟨h1, h2⟩]
  congr 1
  push_cast
  norm_num

lemma aqi_top {c : ℚ} (h : 500.4 < c) :
    calculate_aqi_from_pm25 (some c) = 500 := by
  have h0 : ¬ c < 0 := by simp only [not_lt]; linarith
  simp only [calculate_aqi_from_pm25, pm25_breakpoints, scanBreakpoints, if_neg h0]
  rw [if_neg (by rintro ⟨-, hb⟩; linarith), if_neg (by rintro ⟨-, hb⟩; linarith),
    if_neg (by rintro ⟨-, hb⟩; linarith), if_neg (by rintro ⟨-, hb⟩; linarith),
    if_neg (by rintro ⟨-, hb⟩; linarith), if_neg (by rintro ⟨-, hb⟩; linarith),
    if_neg (by rintro ⟨-, hb⟩; linarith)]

/-- A concentration is covered when it lies inside one of the seven breakpoint
rows or above the top breakpoint.  Non-negative concentrations in the open gaps
(`(12.0, 12.1)`, `(35.4, 35.5)`, …) are NOT covered: the scan falls through on
them. -/
def covered (c : ℚ) : Prop :=
  (0 ≤ c ∧ c ≤ 12.0) ∨ (12.1 ≤ c ∧ c ≤ 35.4) ∨ (35.5 ≤ c ∧ c ≤ 55.4) ∨
    (55.5 ≤ c ∧ c ≤ 150.4) ∨ (150.5 ≤ c ∧ c ≤ 250.4) ∨ (250.5 ≤ c ∧ c ≤ 350.4) ∨
    (350.5 ≤ c ∧ c ≤ 500.4) ∨ 500.4 < c

lemma aqi_not_covered {c : ℚ} (h0 : 0 ≤ c) (h : ¬ covered c) :
    calculate_aqi_from_pm25 (some c) = 500 := by
  simp only [covered, not_or] at h
  obtain ⟨n1, n2, n3, n4, n5, n6, n7, -⟩ := h
  simp only [calculate_aqi_from_pm25, pm25_breakpoints, scanBreakpoints,
    if_neg (not_lt.mpr h0)]
  rw [if_neg n1, if_neg n2, if_neg n3, if_neg n4, if_neg n5, if_neg n6, if_neg n7]

/-- The converter is monotone on covered concentrations.  (It is NOT monotone on
all non-negative rationals: gap values such as `12.05` map to `500`.) -/
lemma aqi_mono_covered {c1 c2 : ℚ} (h : c1 ≤ c2) (hc1 : covered c1)
    (hc2 : covered c2) :
    calculate_aqi_from_pm25 (some c1) ≤ calculate_aqi_from_pm25 (some c2) := by
  rcases hc1 with ⟨a1, b1⟩ | ⟨a1, b1⟩ | ⟨a1, b1⟩ | ⟨a1, b1⟩ | ⟨a1, b1⟩ | ⟨a1, b1⟩ | ⟨a1, b1⟩ | t1 <;>
    rcases hc2 with ⟨a2, b2⟩ | ⟨a2, b2⟩ | ⟨a2, b2⟩ | ⟨a2, b2⟩ | ⟨a2, b2⟩ | ⟨a2, b2⟩ | ⟨a2, b2⟩ | t2
  · rw [aqi_band1 a1 b1, aqi_band1 a2 b2]
    exact pythonRound_mono (by linarith)
  · rw [aqi_band1 a1 b1, aqi_band2 a2 b2]
    exact pythonRound_cross 50 51 (by linarith) (by norm_num) (by linarith)
  · rw [aqi_band1 a1 b1, aqi_band3 a2 b2]
    exact pythonRound_cross 50 101 (by linarith) (by norm_num) (by linarith)
  · rw [aqi_band1 a1 b1, aqi_band4 a2 b2]
    exact pythonRound_cross 50 151 (by linarith) (by norm_num) (by linarith)
  · rw [aqi_band1 a1 b1, aqi_band5 a2 b2]
    exact pythonRound_cross 50 201 (by linarith) (by norm_num) (by linarith)
  · rw [aqi_band1 a1 b1, aqi_band6 a2 b2]
    exact pythonRound_cross 50 301 (by linarith) (by norm_num) (by linarith)
  · rw [aqi_band1 a1 b1, aqi_band7 a2 b2]
    exact pythonRound_cross 50 401 (by linarith) (by norm_num) (by linarith)
  · rw [aqi_band1 a1 b1, aqi_top t2]
    exact pythonRound_le_int (by linarith)
  · exact absurd h (not_le.mpr (by linarith))
  · rw [aqi_band2 a1 b1, aqi_band2 a2 b2]
    exact pythonRound_mono (by linarith)
  · rw [aqi_band2 a1 b1, aqi_band3 a2 b2]
    exact pythonRound_cross 100 101 (by linarith) (by norm_num) (by linarith)
  · rw [aqi_band2 a1 b1, aqi_band4 a2 b2]
    exact pythonRound_cross 100 151 (by linarith) (by norm_num) (by linarith)
  · rw [aqi_band2 a1 b1, aqi_band5 a2 b2]
    exact pythonRound_cross 100 201 (by linarith) (by norm_num) (by linarith)
  · rw [aqi_band2 a1 b1, aqi_band6 a2 b2]
    exact pythonRound_cross 100 301 (by linarith) (by norm_num) (by linarith)
  · rw [aqi_band2 a1 b1, aqi_band7 a2 b2]
    exact pythonRound_cross 100 401 (by linarith) (by norm_num) (by linarith)
  · rw [aqi_band2 a1 b1, aqi_top t2]
    exact pythonRound_le_int (by linarith)
  · exact absurd h (not_le.mpr (by linarith))
  · exact absurd h (not_le.mpr (by linarith))
  · rw [aqi_band3 a1 b1, aqi_band3 a2 b2]
    exact pythonRound_mono (by linarith)
  · rw [aqi_band3 a1 b1, aqi_band4 a2 b2]
    exact pythonRound_cross 150 151 (by linarith) (by norm_num) (by linarith)
  · rw [aqi_band3 a1 b1, aqi_band5 a2 b2]
    exact pythonRound_cross 150 201 (by linarith) (by norm_num) (by linarith)
  · rw [aqi_band3 a1 b1, aqi_band6 a2 b2]
    exact pythonRound_cross 150 301 (by linarith) (by norm_num) (by linarith)
  · rw [aqi_band3 a1 b1, aqi_band7 a2 b2]
    exact pythonRound_cross 150 401 (by linarith) (by norm_num) (by linarith)
  · rw [aqi_band3 a1 b1, aqi_top t2]
    exact pythonRound_le_int (by linarith)
  · exact absurd h (not_le.mpr (by linarith))
  · exact absurd h (not_le.mpr (by linarith))
  · exact absurd h (not_le.mpr (by linarith))
  · rw [aqi_band4 a1 b1, aqi_band4 a2 b2]
    exact pythonRound_mono (by linarith)
  · rw [aqi_band4 a1 b1, aqi_band5 a2 b2]
    exact pythonRound_cross 200 201 (by linarith) (by norm_num) (by linarith)
  · rw [aqi_band4 a1 b1, aqi_band6 a2 b2]
    exact pythonRound_cross 200 301 (by linarith) (by norm_num) (by linarith)
  · rw [aqi_band4 a1 b1, aqi_band7 a2 b2]
    exact pythonRound_cross 200 401 (by linarith) (by norm_num) (by linarith)
  · rw [aqi_band4 a1 b1, aqi_top t2]
    exact pythonRound_le_int (by linarith)
  · exact absurd h (not_le.mpr (by linarith))
  · exact absurd h (not_le.mpr (by linarith))
  · exact absurd h (not_le.mpr (by linarith))
  · exact absurd h (not_le.mpr (by linarith))
  · rw [aqi_band5 a1 b1, aqi_band5 a2 b2]
    exact pythonRound_mono (by linarith)
  · rw [aqi_band5 a1 b1, aqi_band6 a2 b2]
    exact pythonRound_cross 300 301 (by linarith) (by norm_num) (by linarith)
  · rw [aqi_band5 a1 b1, aqi_band7 a2 b2]
    exact pythonRound_cross 300 401 (by linarith) (by norm_num) (by linarith)
  · rw [aqi_band5 a1 b1, aqi_top t2]
    exact pythonRound_le_int (by linarith)
  · exact absurd h (not_le.mpr (by linarith))
  · exact absurd h (not_le.mpr (by linarith))
  · exact absurd h (not_le.mpr (by linarith))
  · exact absurd h (not_le.mpr (by linarith))
  · exact absurd h (not_le.mpr (by linarith))
  · rw [aqi_band6 a1 b1, aqi_band6 a2 b2]
    exact pythonRound_mono (by linarith)
  · rw [aqi_band6 a1 b1, aqi_band7 a2 b2]
    exact pythonRound_cross 400 401 (by linarith) (by norm_num) (by linarith)
  · rw [aqi_band6 a1 b1, aqi_top t2]
    exact pythonRound_le_int (by linarith)
  · exact absurd h (not_le.mpr (by linarith))
  · exact absurd h (not_le.mpr (by linarith))
  · exact absurd h (not_le.mpr (by linarith))
  · exact absurd h (not_le.mpr (by linarith))
  · exact absurd h (not_le.mpr (by linarith))
  · exact absurd h (not_le.mpr (by linarith))
  · rw [aqi_band7 a1 b1, aqi_band7 a2 b2]
    exact pythonRound_mono (by linarith)
  · rw [aqi_band7 a1 b1, aqi_top t2]
    exact pythonRound_le_int (by linarith)
  · exact absurd h (not_le.mpr (by linarith))
  · exact absurd h (not_le.mpr (by linarith))
  · exact absurd h (not_le.mpr (by linarith))
  · exact absurd h (not_le.mpr (by linarith))
  · exact absurd h (not_le.mpr (by linarith))
  · exact absurd h (not_le.mpr (by linarith))
  · exact absurd h (not_le.mpr (by linarith))
  · rw [aqi_top t1, aqi_top t2]

/-!
## Claims C1, C8, C9 — the PM2.5 → AQI converter
-/

/-- Claim C1, counterexample: the claim asserts `pm25_to_aqi` is monotonically
non-decreasing over ALL non-negative concentrations, but `12.05` lies in the gap
between the first two breakpoint rows, so the scan falls through and returns
`500`, while the larger concentration `12.1` maps to `51`. -/
theorem c1_counterexample :
    (0 : ℚ) ≤ 12.05 ∧ (12.05 : ℚ) ≤ 12.1 ∧
      calculate_aqi_from_pm25 (some 12.05) = 500 ∧
      calculate_aqi_from_pm25 (some 12.1) = 51 ∧
      ¬ calculate_aqi_from_pm25 (some 12.05) ≤ calculate_aqi_from_pm25 (some 12.1) := by
  have h1 : calculate_aqi_from_pm25 (some 12.05) = 500 := by
    norm_num [calculate_aqi_from_pm25, pm25_breakpoints, scanBreakpoints]
  have h2 : calculate_aqi_from_pm25 (some 12.1) = 51 := by
    norm_num [calculate_aqi_from_pm25, pm25_breakpoints, scanBreakpoints]
    exact pythonRound_eq_of_lt_half (by norm_num) (by norm_num)
  refine ⟨by norm_num, by norm_num, h1, h2, ?_⟩
  rw [h1, h2]
  norm_num

/-- Claim C1, amended: `pm25_to_aqi` is monotonically non-decreasing over
concentrations covered by a breakpoint row (or above the top breakpoint) —
that is, everywhere except the open gaps `(12.0, 12.1)`, `(35.4, 35.5)`, … —
and at the first breakpoint boundary `pm25_to_aqi 12.0 = 50` and
`pm25_to_aqi 12.1 = 51`. -/
theorem c1_amended :
    (∀ c1 c2 : ℚ, c1 ≤ c2 → covered c1 → covered c2 →
      calculate_aqi_from_pm25 (some c1) ≤ calculate_aqi_from_pm25 (some c2)) ∧
    calculate_aqi_from_pm25 (some 12.0) = 50 ∧
    calculate_aqi_from_pm25 (some 12.1) = 51 := by
  refine ⟨fun c1 c2 h h1 h2 => aqi_mono_covered h h1 h2, ?_, ?_⟩
  · norm_num [calculate_aqi_from_pm25, pm25_breakpoints, scanBreakpoints]
    exact pythonRound_eq_of_lt_half (by norm_num) (by norm_num)
  · norm_num [calculate_aqi_from_pm25, pm25_breakpoints, scanBreakpoints]
    exact pythonRound_eq_of_lt_half (by norm_num) (by norm_num)

/-- Claim C1, witness: the amended monotonicity applied at the concrete covered
pair `5 ≤ 12.1`. -/
theorem c1_witness :
    calculate_aqi_from_pm25 (some 5) ≤ calculate_aqi_from_pm25 (some 12.1) :=
  c1_amended.1 5 12.1 (by norm_num)
    (Or.inl ⟨by norm_num, by norm_num⟩)
    (Or.inr (Or.inl ⟨by norm_num, by norm_num⟩))

/-- Claim C8, counterexample: at concentration `0.12` the interpolated AQI is
exactly `1/2` (halfway between `0` and `1`); Python's `round` (used by
`calculate_aqi_from_pm25`) rounds halves to even, so the converter returns `0`,
not the larger integer `1` that the claimed EPA half-up convention requires. -/
theorem c8_counterexample :
    ((0 : ℚ) ≤ 0.12 ∧ (0.12 : ℚ) ≤ 12.0) ∧
      (50 : ℚ) / 12 * 0.12 = 1 / 2 ∧
      calculate_aqi_from_pm25 (some 0.12) = 0 ∧ (0 : ℤ) ≠ 1 := by
  refine ⟨⟨by norm_num, by norm_num⟩, by norm_num, ?_, by norm_num⟩
  rw [aqi_band1 (by norm_num) (by norm_num),
    show (50 : ℚ) / 12 * 0.12 = ((0 : ℤ) : ℚ) + 1 / 2 by norm_num,
    pythonRound_half]
  norm_num

/-- Claim C8, amended: on exact-halfway interpolated values the converter
follows Python's `round`, i.e. rounds half-to-even — it returns the even
neighbour, not always the larger integer.  Stated for each breakpoint row. -/
theorem c8_amended :
    (∀ (c : ℚ) (k : ℤ), 0 ≤ c → c ≤ 12.0 → 50 / 12 * c = (k : ℚ) + 1 / 2 →
      calculate_aqi_from_pm25 (some c) = if Even k then k else k + 1) ∧
    (∀ (c : ℚ) (k : ℤ), 12.1 ≤ c → c ≤ 35.4 → 49 / 23.3 * (c - 12.1) + 51 = (k : ℚ) + 1 / 2 →
      calculate_aqi_from_pm25 (some c) = if Even k then k else k + 1) ∧
    (∀ (c : ℚ) (k : ℤ), 35.5 ≤ c → c ≤ 55.4 → 49 / 19.9 * (c - 35.5) + 101 = (k : ℚ) + 1 / 2 →
      calculate_aqi_from_pm25 (some c) = if Even k then k else k + 1) ∧
    (∀ (c : ℚ) (k : ℤ), 55.5 ≤ c → c ≤ 150.4 → 49 / 94.9 * (c - 55.5) + 151 = (k : ℚ) + 1 / 2 →
      calculate_aqi_from_pm25 (some c) = if Even k then k else k + 1) ∧
    (∀ (c : ℚ) (k : ℤ), 150.5 ≤ c → c ≤ 250.4 → 99 / 99.9 * (c - 150.5) + 201 = (k : ℚ) + 1 / 2 →
      calculate_aqi_from_pm25 (some c) = if Even k then k else k + 1) ∧
    (∀ (c : ℚ) (k : ℤ), 250.5 ≤ c → c ≤ 350.4 → 99 / 99.9 * (c - 250.5) + 301 = (k : ℚ) + 1 / 2 →
      calculate_aqi_from_pm25 (some c) = if Even k then k else k + 1) ∧
    (∀ (c : ℚ) (k : ℤ), 350.5 ≤ c → c ≤ 500.4 → 99 / 149.9 * (c - 350.5) + 401 = (k : ℚ) + 1 / 2 →
      calculate_aqi_from_pm25 (some c) = if Even k then k else k + 1) := by
  refine ⟨fun c k h1 h2 h3 => ?_, fun c k h1 h2 h3 => ?_, fun c k h1 h2 h3 => ?_,
    fun c k h1 h2 h3 => ?_, fun c k h1 h2 h3 => ?_, fun c k h1 h2 h3 => ?_,
    fun c k h1 h2 h3 => ?_⟩
  · rw [aqi_band1 h1 h2, h3, pythonRound_half]
  · rw [aqi_band2 h1 h2, h3, pythonRound_half]
  · rw [aqi_band3 h1 h2, h3, pythonRound_half]
  · rw [aqi_band4 h1 h2, h3, pythonRound_half]
  · rw [aqi_band5 h1 h2, h3, pythonRound_half]
  · rw [aqi_band6 h1 h2, h3, pythonRound_half]
  · rw [aqi_band7 h1 h2, h3, pythonRound_half]

/-- Claim C8, witness: the amended half-to-even behaviour applied at the
concrete halfway input `0.12` (interpolated AQI exactly `1/2`, result `0`). -/
theorem c8_witness : calculate_aqi_from_pm25 (some 0.12) = 0 := by
  have h := c8_amended.1 0.12 0 (by norm_num) (by norm_num) (by norm_num)
  simpa using h

/-- Claim C9 (confirmed): the converter is total, always lands in `[0, 500]`,
and returns the fixed default `50` on missing (`None`/`NaN`) or negative
concentrations. -/
theorem c9_total_range_defaults :
    (∀ o : Option ℚ, 0 ≤ calculate_aqi_from_pm25 o ∧ calculate_aqi_from_pm25 o ≤ 500) ∧
    calculate_aqi_from_pm25 none = 50 ∧
    (∀ c : ℚ, c < 0 → calculate_aqi_from_pm25 (some c) = 50) := by
  refine ⟨?_, rfl, fun c hc => by simp only [calculate_aqi_from_pm25, if_pos hc]⟩
  intro o
  rcases o with - | c
  · simp only [calculate_aqi_from_pm25]
    exact ⟨by norm_num, by norm_num⟩
  · by_cases hneg : c < 0
    · simp only [calculate_aqi_from_pm25, if_pos hneg]
      exact ⟨by norm_num, by norm_num⟩
    · have h0 : 0 ≤ c := not_lt.mp hneg
      by_cases hcov : covered c
      · rcases hcov with ⟨a1, b1⟩ | ⟨a1, b1⟩ | ⟨a1, b1⟩ | ⟨a1, b1⟩ | ⟨a1, b1⟩ | ⟨a1, b1⟩ | ⟨a1, b1⟩ | t1
        · rw [aqi_band1 a1 b1]
          exact ⟨int_le_pythonRound (by linarith), pythonRound_le_int (by linarith)⟩
        · rw [aqi_band2 a1 b1]
          exact ⟨int_le_pythonRound (by linarith), pythonRound_le_int (by linarith)⟩
        · rw [aqi_band3 a1 b1]
          exact ⟨int_le_pythonRound (by linarith), pythonRound_le_int (by linarith)⟩
        · rw [aqi_band4 a1 b1]
          exact ⟨int_le_pythonRound (by linarith), pythonRound_le_int (by linarith)⟩
        · rw [aqi_band5 a1 b1]
          exact ⟨int_le_pythonRound (by linarith), pythonRound_le_int (by linarith)⟩
        · rw [aqi_band6 a1 b1]
          exact ⟨int_le_pythonRound (by linarith), pythonRound_le_int (by linarith)⟩
        · rw [aqi_band7 a1 b1]
          exact ⟨int_le_pythonRound (by linarith), pythonRound_le_int (by linarith)⟩
        · rw [aqi_top t1]
          exact ⟨by norm_num, le_refl 500⟩
      · rw [aqi_not_covered h0 hcov]
        exact ⟨by norm_num, le_refl 500⟩

/-- Claim C9, witness: totality bounds at `1000` and both documented defaults. -/
theorem c9_witness :
    (0 ≤ calculate_aqi_from_pm25 (some 1000) ∧ calculate_aqi_from_pm25 (some 1000) ≤ 500) ∧
      calculate_aqi_from_pm25 none = 50 ∧ calculate_aqi_from_pm25 (some (-5)) = 50 :=
  ⟨c9_total_range_defaults.1 (some 1000), c9_total_range_defaults.2.1,
    c9_total_range_defaults.2.2 (-5) (by norm_num)⟩

/-!
## AQI classifier (`get_aqi_category`, analytics_service.py 41–46 and
database_analytics.py 226–231; both copies are identical)

The `self.aqi_categories` dict preserves insertion order, so the classifier is
an ordered scan over the six `(name, (min_val, max_val, color))` entries with a
`('Hazardous', '#880000')` fall-through.
-/

/-- The fixed ordered category table `self.aqi_categories`:
`(name, min_val, max_val, color)`. -/
def aqi_categories : List (String × ℚ × ℚ × String) :=
  [("Good", 0, 50, "#00ff88"),
   ("Moderate", 51, 100, "#ffff00"),
   ("Unhealthy for Sensitive Groups", 101, 150, "#ff8800"),
   ("Unhealthy", 151, 200, "#ff0000"),
   ("Very Unhealthy", 201, 300, "#8800ff"),
   ("Hazardous", 301, 500, "#880000")]

/-- The `for category, (min_val, max_val, color) in self.aqi_categories.items():`
scan with the `return 'Hazardous', '#880000'` fall-through. -/
def classifyScan (v : ℚ) : List (String × ℚ × ℚ × String) → String × String
  | [] => ("Hazardous", "#880000")
  | (name, lo, hi, color) :: rest =>
      if lo ≤ v ∧ v ≤ hi then (name, color) else classifyScan v rest

/-- `get_aqi_category(aqi_value)`. -/
def get_aqi_category (v : ℚ) : String × String := classifyScan v aqi_categories

lemma classify_good {v : ℚ} (h1 : (0 : ℚ) ≤ v) (h2 : v ≤ (50 : ℚ)) :
    get_aqi_category v = ("Good", "#00ff88") := by
  simp only [get_aqi_category, aqi_categories, classifyScan]
  rw [if_pos ⟨h1, h2⟩]

lemma classify_moderate {v : ℚ} (h1 : (51 : ℚ) ≤ v) (h2 : v ≤ (100 : ℚ)) :
    get_aqi_category v = ("Moderate", "#ffff00") := by
  simp only [get_aqi_category, aqi_categories, classifyScan]
  rw [if_neg (by rintro ⟨ha, hb⟩; linarith), if_pos ⟨h1, h2⟩]

lemma classify_usg {v : ℚ} (h1 : (101 : ℚ) ≤ v) (h2 : v ≤ (150 : ℚ)) :
    get_aqi_category v = ("Unhealthy for Sensitive Groups", "#ff8800") := by
  simp only [get_aqi_category, aqi_categories, classifyScan]
  rw [if_neg (by rintro ⟨ha, hb⟩; linarith), if_neg (by rintro ⟨ha, hb⟩; linarith), if_pos ⟨h1, h2⟩]

lemma classify_unhealthy {v : ℚ} (h1 : (151 : ℚ) ≤ v) (h2 : v ≤ (200 : ℚ)) :
    get_aqi_category v = ("Unhealthy", "#ff0000") := by
  simp only [get_aqi_category, aqi_categories, classifyScan]
  rw [if_neg (by rintro ⟨ha, hb⟩; linarith), if_neg (by rintro ⟨ha, hb⟩; linarith), if_neg (by rintro ⟨ha, hb⟩; linarith), if_pos ⟨h1, h2⟩]

lemma classify_very_unhealthy {v : ℚ} (h1 : (201 : ℚ) ≤ v) (h2 : v ≤ (300 : ℚ)) :
    get_aqi_category v = ("Very Unhealthy", "#8800ff") := by
  simp only [get_aqi_category, aqi_categories, classifyScan]
  rw [if_neg (by rintro ⟨ha, hb⟩; linarith), if_neg (by rintro ⟨ha, hb⟩; linarith), if_neg (by rintro ⟨ha, hb⟩; linarith), if_neg (by rintro ⟨ha, hb⟩; linarith), if_pos ⟨h1, h2⟩]

lemma classify_hazardous_range {v : ℚ} (h1 : (301 : ℚ) ≤ v) (h2 : v ≤ (500 : ℚ)) :
    get_aqi_category v = ("Hazardous", "#880000") := by
  simp only [get_aqi_category, aqi_categories, classifyScan]
  rw [if_neg (by rintro ⟨ha, hb⟩; linarith), if_neg (by rintro ⟨ha, hb⟩; linarith), if_neg (by rintro ⟨ha, hb⟩; linarith), if_neg (by rintro ⟨ha, hb⟩; linarith), if_neg (by rintro ⟨ha, hb⟩; linarith), if_pos ⟨h1, h2⟩]

lemma classify_neg {v : ℚ} (h : v < 0) :
    get_aqi_category v = ("Hazardous", "#880000") := by
  simp only [get_aqi_category, aqi_categories, classifyScan]
  rw [if_neg (by rintro ⟨ha, hb⟩; linarith),
    if_neg (by rintro ⟨ha, hb⟩; linarith),
    if_neg (by rintro ⟨ha, hb⟩; linarith),
    if_neg (by rintro ⟨ha, hb⟩; linarith),
    if_neg (by rintro ⟨ha, hb⟩; linarith),
    if_neg (by rintro ⟨ha, hb⟩; linarith)]

lemma classify_gt500 {v : ℚ} (h : 500 < v) :
    get_aqi_category v = ("Hazardous", "#880000") := by
  simp only [get_aqi_category, aqi_categories, classifyScan]
  rw [if_neg (by rintro ⟨ha, hb⟩; linarith),
    if_neg (by rintro ⟨ha, hb⟩; linarith),
    if_neg (by rintro ⟨ha, hb⟩; linarith),
    if_neg (by rintro ⟨ha, hb⟩; linarith),
    if_neg (by rintro ⟨ha, hb⟩; linarith),
    if_neg (by rintro ⟨ha, hb⟩; linarith)]

/-!
## Claims C5 and C10 — the classifier table
-/

/-- Claim C5, counterexample: the claim says every numeric AQI value in
`[0, 500]` is contained in exactly one table range, with the fallback reached
only above `500`; but the table ranges are integer-gapped, so the non-integer
value `50.5` lies in `[0, 500]`, matches NO entry, and lands in the fallback. -/
theorem c5_counterexample :
    ((0 : ℚ) ≤ 50.5 ∧ (50.5 : ℚ) ≤ 500) ∧
      (∀ e ∈ aqi_categories, ¬ (e.2.1 ≤ (50.5 : ℚ) ∧ (50.5 : ℚ) ≤ e.2.2.1)) ∧
      get_aqi_category 50.5 = ("Hazardous", "#880000") ∧
      ¬ (500 : ℚ) < 50.5 := by
  refine ⟨⟨by norm_num, by norm_num⟩, ?_, ?_, by norm_num⟩
  · intro e he
    fin_cases he <;> norm_num
  · norm_num [get_aqi_category, aqi_categories, classifyScan]

/-- Claim C5, amended: for every INTEGER AQI value in `[0, 500]` exactly one
entry of the category table contains the value and `get_aqi_category` returns
that entry's `(name, color)`; the fallback branch is reached for every value
above `500` — but also for every negative value (and, per the counterexample,
for non-integer gap values), not only for values above `500`. -/
theorem c5_amended :
    (∀ v : ℤ, 0 ≤ v → v ≤ 500 →
      ∃ e, (e ∈ aqi_categories ∧ (e.2.1 ≤ (v : ℚ) ∧ (v : ℚ) ≤ e.2.2.1) ∧
          get_aqi_category (v : ℚ) = (e.1, e.2.2.2)) ∧
        ∀ e2 ∈ aqi_categories, (e2.2.1 ≤ (v : ℚ) ∧ (v : ℚ) ≤ e2.2.2.1) → e2 = e) ∧
    (∀ v : ℚ, 500 < v → get_aqi_category v = ("Hazardous", "#880000")) ∧
    (∀ v : ℚ, v < 0 → get_aqi_category v = ("Hazardous", "#880000")) := by
  refine ⟨fun v h0 h500 => ?_, fun v h => classify_gt500 h, fun v h => classify_neg h⟩
  by_cases hv1 : v ≤ 50
  · have hlo : (0 : ℚ) ≤ (v : ℚ) := by exact_mod_cast h0
    have hhi : (v : ℚ) ≤ (50 : ℚ) := by exact_mod_cast hv1
    refine ⟨("Good", 0, 50, "#00ff88"), ⟨by simp [aqi_categories], ⟨hlo, hhi⟩,
      classify_good hlo hhi⟩, ?_⟩
    intro e2 he2 hr2
    fin_cases he2
    · rfl
    · have hb : (51 : ℚ) ≤ (v : ℚ) := hr2.1
      exact absurd (show (51 : ℤ) ≤ v by exact_mod_cast hb) (by omega)
    · have hb : (101 : ℚ) ≤ (v : ℚ) := hr2.1
      exact absurd (show (101 : ℤ) ≤ v by exact_mod_cast hb) (by omega)
    · have hb : (151 : ℚ) ≤ (v : ℚ) := hr2.1
      exact absurd (show (151 : ℤ) ≤ v by exact_mod_cast hb) (by omega)
    · have hb : (201 : ℚ) ≤ (v : ℚ) := hr2.1
      exact absurd (show (201 : ℤ) ≤ v by exact_mod_cast hb) (by omega)
    · have hb : (301 : ℚ) ≤ (v : ℚ) := hr2.1
      exact absurd (show (301 : ℤ) ≤ v by exact_mod_cast hb) (by omega)
  by_cases hv2 : v ≤ 100
  · have hlo : (51 : ℚ) ≤ (v : ℚ) := by exact_mod_cast (show (51 : ℤ) ≤ v by omega)
    have hhi : (v : ℚ) ≤ (100 : ℚ) := by exact_mod_cast hv2
    refine ⟨("Moderate", 51, 100, "#ffff00"), ⟨by simp [aqi_categories], ⟨hlo, hhi⟩,
      classify_moderate hlo hhi⟩, ?_⟩
    intro e2 he2 hr2
    fin_cases he2
    · have hb : (v : ℚ) ≤ (50 : ℚ) := hr2.2
      exact absurd (show v ≤ (50 : ℤ) by exact_mod_cast hb) (by omega)
    · rfl
    · have hb : (101 : ℚ) ≤ (v : ℚ) := hr2.1
      exact absurd (show (101 : ℤ) ≤ v by exact_mod_cast hb) (by omega)
    · have hb : (151 : ℚ) ≤ (v : ℚ) := hr2.1
      exact absurd (show (151 : ℤ) ≤ v by exact_mod_cast hb) (by omega)
    · have hb : (201 : ℚ) ≤ (v : ℚ) := hr2.1
      exact absurd (show (201 : ℤ) ≤ v by exact_mod_cast hb) (by omega)
    · have hb : (301 : ℚ) ≤ (v : ℚ) := hr2.1
      exact absurd (show (301 : ℤ) ≤ v by exact_mod_cast hb) (by omega)
  by_cases hv3 : v ≤ 150
  · have hlo : (101 : ℚ) ≤ (v : ℚ) := by exact_mod_cast (show (101 : ℤ) ≤ v by omega)
    have hhi : (v : ℚ) ≤ (150 : ℚ) := by exact_mod_cast hv3
    refine ⟨("Unhealthy for Sensitive Groups", 101, 150, "#ff8800"), ⟨by simp [aqi_categories], ⟨hlo, hhi⟩,
      classify_usg hlo hhi⟩, ?_⟩
    intro e2 he2 hr2
    fin_cases he2
    · have hb : (v : ℚ) ≤ (50 : ℚ) := hr2.2
      exact absurd (show v ≤ (50 : ℤ) by exact_mod_cast hb) (by omega)
    · have hb : (v : ℚ) ≤ (100 : ℚ) := hr2.2
      exact absurd (show v ≤ (100 : ℤ) by exact_mod_cast hb) (by omega)
    · rfl
    · have hb : (151 : ℚ) ≤ (v : ℚ) := hr2.1
      exact absurd (show (151 : ℤ) ≤ v by exact_mod_cast hb) (by omega)
    · have hb : (201 : ℚ) ≤ (v : ℚ) := hr2.1
      exact absurd (show (201 : ℤ) ≤ v by exact_mod_cast hb) (by omega)
    · have hb : (301 : ℚ) ≤ (v : ℚ) := hr2.1
      exact absurd (show (301 : ℤ) ≤ v by exact_mod_cast hb) (by omega)
  by_cases hv4 : v ≤ 200
  · have hlo : (151 : ℚ) ≤ (v : ℚ) := by exact_mod_cast (show (151 : ℤ) ≤ v by omega)
    have hhi : (v : ℚ) ≤ (200 : ℚ) := by exact_mod_cast hv4
    refine ⟨("Unhealthy", 151, 200, "#ff0000"), ⟨by simp [aqi_categories], ⟨hlo, hhi⟩,
      classify_unhealthy hlo hhi⟩, ?_⟩
    intro e2 he2 hr2
    fin_cases he2
    · have hb : (v : ℚ) ≤ (50 : ℚ) := hr2.2
      exact absurd (show v ≤ (50 : ℤ) by exact_mod_cast hb) (by omega)
    · have hb : (v : ℚ) ≤ (100 : ℚ) := hr2.2
      exact absurd (show v ≤ (100 : ℤ) by exact_mod_cast hb) (by omega)
    · have hb : (v : ℚ) ≤ (150 : ℚ) := hr2.2
      exact absurd (show v ≤ (150 : ℤ) by exact_mod_cast hb) (by omega)
    · rfl
    · have hb : (201 : ℚ) ≤ (v : ℚ) := hr2.1
      exact absurd (show (201 : ℤ) ≤ v by exact_mod_cast hb) (by omega)
    · have hb : (301 : ℚ) ≤ (v : ℚ) := hr2.1
      exact absurd (show (301 : ℤ) ≤ v by exact_mod_cast hb) (by omega)
  by_cases hv5 : v ≤ 300
  · have hlo : (201 : ℚ) ≤ (v : ℚ) := by exact_mod_cast (show (201 : ℤ) ≤ v by omega)
    have hhi : (v : ℚ) ≤ (300 : ℚ) := by exact_mod_cast hv5
    refine ⟨("Very Unhealthy", 201, 300, "#8800ff"), ⟨by simp [aqi_categories], ⟨hlo, hhi⟩,
      classify_very_unhealthy hlo hhi⟩, ?_⟩
    intro e2 he2 hr2
    fin_cases he2
    · have hb : (v : ℚ) ≤ (50 : ℚ) := hr2.2
      exact absurd (show v ≤ (50 : ℤ) by exact_mod_cast hb) (by omega)
    · have hb : (v : ℚ) ≤ (100 : ℚ) := hr2.2
      exact absurd (show v ≤ (100 : ℤ) by exact_mod_cast hb) (by omega)
    · have hb : (v : ℚ) ≤ (150 : ℚ) := hr2.2
      exact absurd (show v ≤ (150 : ℤ) by exact_mod_cast hb) (by omega)
    · have hb : (v : ℚ) ≤ (200 : ℚ) := hr2.2
      exact absurd (show v ≤ (200 : ℤ) by exact_mod_cast hb) (by omega)
    · rfl
    · have hb : (301 : ℚ) ≤ (v : ℚ) := hr2.1
      exact absurd (show (301 : ℤ) ≤ v by exact_mod_cast hb) (by omega)
  · have hlo : (301 : ℚ) ≤ (v : ℚ) := by exact_mod_cast (show (301 : ℤ) ≤ v by omega)
    have hhi : (v : ℚ) ≤ (500 : ℚ) := by exact_mod_cast h500
    refine ⟨("Hazardous", 301, 500, "#880000"), ⟨by simp [aqi_categories], ⟨hlo, hhi⟩,
      classify_hazardous_range hlo hhi⟩, ?_⟩
    intro e2 he2 hr2
    fin_cases he2
    · have hb : (v : ℚ) ≤ (50 : ℚ) := hr2.2
      exact absurd (show v ≤ (50 : ℤ) by exact_mod_cast hb) (by omega)
    · have hb : (v : ℚ) ≤ (100 : ℚ) := hr2.2
      exact absurd (show v ≤ (100 : ℤ) by exact_mod_cast hb) (by omega)
    · have hb : (v : ℚ) ≤ (150 : ℚ) := hr2.2
      exact absurd (show v ≤ (150 : ℤ) by exact_mod_cast hb) (by omega)
    · have hb : (v : ℚ) ≤ (200 : ℚ) := hr2.2
      exact absurd (show v ≤ (200 : ℤ) by exact_mod_cast hb) (by omega)
    · have hb : (v : ℚ) ≤ (300 : ℚ) := hr2.2
      exact absurd (show v ≤ (300 : ℤ) by exact_mod_cast hb) (by omega)
    · rfl

/-- Claim C5, witness: the amended claim applied at the in-range integer `42`
and at the out-of-range values `501` and `-3`. -/
theorem c5_witness :
    (∃ e, (e ∈ aqi_categories ∧ (e.2.1 ≤ ((42 : ℤ) : ℚ) ∧ ((42 : ℤ) : ℚ) ≤ e.2.2.1) ∧
        get_aqi_category ((42 : ℤ) : ℚ) = (e.1, e.2.2.2)) ∧
      ∀ e2 ∈ aqi_categories, (e2.2.1 ≤ ((42 : ℤ) : ℚ) ∧ ((42 : ℤ) : ℚ) ≤ e2.2.2.1) → e2 = e) ∧
      get_aqi_category 501 = ("Hazardous", "#880000") ∧
      get_aqi_category (-3) = ("Hazardous", "#880000") :=
  ⟨c5_amended.1 42 (by norm_num) (by norm_num), c5_amended.2.1 501 (by norm_num),
    c5_amended.2.2 (-3) (by norm_num)⟩

/-- Claim C10 (confirmed): every negative AQI value matches no table range, so
`get_aqi_category` takes the fall-through branch and returns
`("Hazardous", "#880000")` — the same branch the spec reserves for values above
`500`. -/
theorem c10_negative_fallback :
    ∀ v : ℚ, v < 0 → get_aqi_category v = ("Hazardous", "#880000") :=
  fun _ h => classify_neg h

/-- Claim C10, witness: the negative-input fallback at `-1`. -/
theorem c10_witness : get_aqi_category (-1) = ("Hazardous", "#880000") :=
  c10_negative_fallback (-1) (by norm_num)

/-!
## Statistics aggregator (`calculate_statistics`, analytics_service.py 52–95 and
database_analytics.py 233–278; the statistical fields are computed identically)

The aggregator works on the `df['aqiValue']` series; we embed that series as a
`List ℚ` of AQI values in reading order.

* `trend` embeds lines 86–91: `np.polyfit(range(len(df)), df['aqiValue'], 1)[0]`
  is the unique least-squares slope of the values against 0-based index, whose
  closed form is `(n·Σxy − Σx·Σy) / (n·Σx² − (Σx)²)`; the label thresholds the
  slope at `±0.5` and a single reading yields `'Insufficient data'`.
* `std_aqi` embeds line 62: `round(df['aqiValue'].std(), 2)`.  pandas `.std()`
  uses `ddof=1` (the SAMPLE standard deviation) and yields `NaN` on a single
  observation; `NaN` is embedded as `none`.
-/

/-- `Σ i` over the 0-based indices `range(n)`, as a rational. -/
def idxSum (n : ℕ) : ℚ := ((List.range n).map (fun i : ℕ => (i : ℚ))).sum

/-- `Σ i²` over the 0-based indices `range(n)`. -/
def idxSqSum (n : ℕ) : ℚ := ((List.range n).map (fun i : ℕ => (i : ℚ) ^ 2)).sum

/-- `Σ i·yᵢ`: index-weighted sum of the values. -/
def idxWeightedSum (ys : List ℚ) : ℚ :=
  ((((List.range ys.length).map (fun i : ℕ => (i : ℚ))).zip ys).map (fun p => p.1 * p.2)).sum

/-- The least-squares slope `np.polyfit(range(len(df)), df['aqiValue'], 1)[0]`
in closed form. -/
def trend_slope (ys : List ℚ) : ℚ :=
  ((ys.length : ℚ) * idxWeightedSum ys - idxSum ys.length * ys.sum) /
    ((ys.length : ℚ) * idxSqSum ys.length - idxSum ys.length ^ 2)

/-- The `stats['trend']` field: `'Increasing' if trend_coef > 0.5 else
'Decreasing' if trend_coef < -0.5 else 'Stable'`, guarded by `len(df) > 1`. -/
def trend (ys : List ℚ) : String :=
  if 1 < ys.length then
    if trend_slope ys > 0.5 then "Increasing"
    else if trend_slope ys < -0.5 then "Decreasing"
    else "Stable"
  else "Insufficient data"

lemma idxSum_eq (n : ℕ) : idxSum n = n * (n - 1) / 2 := by
  induction n with
  | zero => simp [idxSum]
  | succ m ih =>
    unfold idxSum at ih ⊢
    rw [List.range_succ, List.map_append, List.sum_append]
    rw [ih]
    simp only [List.map_cons, List.map_nil, List.sum_cons, List.sum_nil]
    push_cast
    ring

lemma idxSqSum_eq (n : ℕ) : idxSqSum n = n * (n - 1) * (2 * n - 1) / 6 := by
  induction n with
  | zero => simp [idxSqSum]
  | succ m ih =>
    unfold idxSqSum at ih ⊢
    rw [List.range_succ, List.map_append, List.sum_append]
    rw [ih]
    simp only [List.map_cons, List.map_nil, List.sum_cons, List.sum_nil]
    push_cast
    ring

lemma trend_denom_eq (n : ℕ) :
    (n : ℚ) * idxSqSum n - idxSum n ^ 2 = (n : ℚ) ^ 2 * ((n : ℚ) - 1) * ((n : ℚ) + 1) / 12 := by
  rw [idxSum_eq, idxSqSum_eq]
  ring

lemma trend_denom_pos {n : ℕ} (h : 2 ≤ n) :
    0 < (n : ℚ) * idxSqSum n - idxSum n ^ 2 := by
  rw [trend_denom_eq]
  have hn : (2 : ℚ) ≤ (n : ℚ) := by exact_mod_cast h
  have h1 : (0 : ℚ) < (n : ℚ) ^ 2 := by nlinarith
  have h2 : (0 : ℚ) < (n : ℚ) - 1 := by linarith
  have h3 : (0 : ℚ) < (n : ℚ) + 1 := by linarith
  have := mul_pos (mul_pos h1 h2) h3
  linarith

lemma zip_sum_linear (a b : ℚ) :
    ∀ (xs ys : List ℚ), xs.length = ys.length →
      ((xs.zip ys).map (fun p => p.2 - (a + b * p.1))).sum
        = ys.sum - ((xs.length : ℚ) * a + b * xs.sum) := by
  intro xs
  induction xs with
  | nil =>
    intro ys h
    cases ys with
    | nil => simp
    | cons y ys => simp at h
  | cons x xs ih =>
    intro ys h
    cases ys with
    | nil => simp at h
    | cons y ys =>
      simp only [List.zip_cons_cons, List.map_cons, List.sum_cons, List.length_cons]
      rw [ih ys (by simpa using h)]
      push_cast
      ring

lemma zip_sum_weighted (a b : ℚ) :
    ∀ (xs ys : List ℚ), xs.length = ys.length →
      ((xs.zip ys).map (fun p => p.1 * (p.2 - (a + b * p.1)))).sum
        = ((xs.zip ys).map (fun p => p.1 * p.2)).sum - a * xs.sum
            - b * (xs.map (fun x => x ^ 2)).sum := by
  intro xs
  induction xs with
  | nil =>
    intro ys h
    cases ys with
    | nil => simp
    | cons y ys => simp at h
  | cons x xs ih =>
    intro ys h
    cases ys with
    | nil => simp at h
    | cons y ys =>
      simp only [List.zip_cons_cons, List.map_cons, List.sum_cons]
      rw [ih ys (by simpa using h)]
      ring

/-- Claim C7 (confirmed): for sequences of length ≥ 2 the trend label is
determined by thresholding the least-squares slope of value against 0-based
index at `±0.5`; the fitted line's residuals satisfy both least-squares normal
equations (so `trend_slope` really is the least-squares slope `np.polyfit`
returns); a single reading yields `'Insufficient data'`; and on
`[10, 20, 30, 40, 50]` the label is `'Increasing'`. -/
theorem c7_trend_least_squares :
    (∀ ys : List ℚ, ys.length = 1 → trend ys = "Insufficient data") ∧
    (∀ ys : List ℚ, 2 ≤ ys.length →
      ((trend ys = "Increasing" ↔ 1 / 2 < trend_slope ys) ∧
       (trend ys = "Decreasing" ↔ trend_slope ys < -(1 / 2)) ∧
       (trend ys = "Stable" ↔ -(1 / 2) ≤ trend_slope ys ∧ trend_slope ys ≤ 1 / 2))) ∧
    (∀ ys : List ℚ, 2 ≤ ys.length →
      ((((List.range ys.length).map (fun i : ℕ => (i : ℚ))).zip ys).map
          (fun p => p.2 - ((ys.sum - trend_slope ys * idxSum ys.length) / ys.length
            + trend_slope ys * p.1))).sum = 0 ∧
      ((((List.range ys.length).map (fun i : ℕ => (i : ℚ))).zip ys).map
          (fun p => p.1 * (p.2 - ((ys.sum - trend_slope ys * idxSum ys.length) / ys.length
            + trend_slope ys * p.1)))).sum = 0) ∧
    trend [10, 20, 30, 40, 50] = "Increasing" := by
  refine ⟨fun ys h => ?_, fun ys h => ?_, fun ys h => ?_, ?_⟩
  · unfold trend
    rw [if_neg (by omega)]
  · unfold trend
    rw [if_pos (by omega)]
    have he : (0.5 : ℚ) = 1 / 2 := by norm_num
    split_ifs with h1 h2
    · rw [he] at h1
      refine ⟨iff_of_true rfl h1, iff_of_false (by decide) (by linarith),
        iff_of_false (by decide) ?_⟩
      rintro ⟨-, hb⟩
      linarith
    · rw [he] at h2
      rw [not_lt, he] at h1
      refine ⟨iff_of_false (by decide) (by linarith), iff_of_true rfl (by linarith),
        iff_of_false (by decide) ?_⟩
      rintro ⟨ha, -⟩
      linarith
    · rw [not_lt, he] at h1
      rw [not_lt, he] at h2
      exact ⟨iff_of_false (by decide) (by linarith), iff_of_false (by decide) (by linarith),
        iff_of_true rfl ⟨by linarith, by linarith⟩⟩
  · have hn0 : (ys.length : ℚ) ≠ 0 := Nat.cast_ne_zero.mpr (by omega)
    have hD : (ys.length : ℚ) * idxSqSum ys.length - idxSum ys.length ^ 2 ≠ 0 :=
      (trend_denom_pos h).ne'
    have hlen : ((List.range ys.length).map (fun i : ℕ => (i : ℚ))).length = ys.length := by
      simp
    have hs : ((List.range ys.length).map (fun i : ℕ => (i : ℚ))).sum = idxSum ys.length := rfl
    have hq : (((List.range ys.length).map (fun i : ℕ => (i : ℚ))).map
        (fun x => x ^ 2)).sum = idxSqSum ys.length := by
      rw [List.map_map]
      rfl
    have hw : ((((List.range ys.length).map (fun i : ℕ => (i : ℚ))).zip ys).map
        (fun p => p.1 * p.2)).sum = idxWeightedSum ys := rfl
    constructor
    · rw [zip_sum_linear _ _ _ _ hlen, hlen, hs]
      field_simp
    · rw [zip_sum_weighted _ _ _ _ hlen, hs, hq, hw]
      unfold trend_slope
      field_simp
      ring
  · have h5 : trend_slope [10, 20, 30, 40, 50] = 10 := by
      unfold trend_slope idxWeightedSum idxSum idxSqSum
      norm_num [List.range_succ]
    unfold trend
    rw [if_pos (by norm_num), h5]
    norm_num

/-- Claim C7, witness: the characterisation applied at the concrete list
`[10, 20, 30, 40, 50]` (length `5 ≥ 2`) and at the single reading `[7]`. -/
theorem c7_witness :
    (trend [10, 20, 30, 40, 50] = "Increasing" ↔ 1 / 2 < trend_slope [10, 20, 30, 40, 50]) ∧
      trend [7] = "Insufficient data" :=
  ⟨(c7_trend_least_squares.2.1 [10, 20, 30, 40, 50] (by norm_num)).1,
    c7_trend_least_squares.1 [7] (by norm_num)⟩

/-!
## Claim C6 — the `std_aqi` field

`stats['std_aqi'] = round(df['aqiValue'].std(), 2)`.  pandas `Series.std()`
defaults to `ddof=1`: the SAMPLE standard deviation `√(Σ(x−x̄)²/(n−1))`, which
is `NaN` (here: `none`) for a single observation.  The square root is
irrational in general, so the standard deviation itself lives in `ℝ`; the
variances are exact rationals.  `pythonRoundR` is Python's `round` on reals and
`round2R` is `round(·, 2)`.
-/

/-- The mean of a list of rationals (`Series.mean()`). -/
def listMean (xs : List ℚ) : ℚ := xs.sum / (xs.length : ℚ)

/-- Sample variance, `ddof=1` — what pandas `Series.std()` squares. -/
def sampleVar (xs : List ℚ) : ℚ :=
  (xs.map (fun x => (x - listMean xs) ^ 2)).sum / ((xs.length : ℚ) - 1)

/-- Population variance, `ddof=0` — what the spec's words describe. -/
def popVar (xs : List ℚ) : ℚ :=
  (xs.map (fun x => (x - listMean xs) ^ 2)).sum / (xs.length : ℚ)

/-- Python's `round` on a real argument (half-to-even). -/
noncomputable def pythonRoundR (x : ℝ) : ℤ :=
  if Int.fract x < 1 / 2 then ⌊x⌋
  else if 1 / 2 < Int.fract x then ⌊x⌋ + 1
  else if Even ⌊x⌋ then ⌊x⌋ else ⌊x⌋ + 1

/-- Python's `round(x, 2)`. -/
noncomputable def round2R (x : ℝ) : ℝ := (pythonRoundR (100 * x) : ℝ) / 100

/-- The `stats['std_aqi']` field: `round(df['aqiValue'].std(), 2)`, with pandas'
`ddof=1` and its `NaN` (= `none`) on fewer than two observations. -/
noncomputable def std_aqi (xs : List ℚ) : Option ℝ :=
  if 2 ≤ xs.length then some (round2R (Real.sqrt ((sampleVar xs : ℝ)))) else none

/-- The claim's reading of the spec: the POPULATION standard deviation of a
non-empty sequence, rounded to 2 decimals.  Written from the spec's words, for
comparison against `std_aqi`. -/
noncomputable def spec_population_std_rounded (xs : List ℚ) : Option ℝ :=
  if 1 ≤ xs.length then some (round2R (Real.sqrt ((popVar xs : ℝ)))) else none

lemma pythonRoundR_zero : pythonRoundR 0 = 0 := by
  unfold pythonRoundR
  rw [Int.fract_zero, Int.floor_zero]
  norm_num

lemma round2R_zero : round2R 0 = 0 := by
  unfold round2R
  rw [mul_zero, pythonRoundR_zero]
  norm_num

/-- Claim C6, counterexample: on the single-reading sequence `[5]` the code's
`std_aqi` is pandas' `NaN` (embedded `none`), while the population standard
deviation the claim demands is `0`. -/
theorem c6_counterexample :
    std_aqi [5] = none ∧ spec_population_std_rounded [5] = some 0 ∧
      (none : Option ℝ) ≠ some (0 : ℝ) := by
  refine ⟨?_, ?_, by simp⟩
  · unfold std_aqi
    rw [if_neg (by norm_num)]
  · unfold spec_population_std_rounded
    rw [if_pos (by norm_num)]
    have hp : popVar [5] = 0 := by
      unfold popVar listMean
      norm_num
    rw [hp]
    rw [show (((0 : ℚ) : ℝ)) = (0 : ℝ) by norm_num, Real.sqrt_zero, round2R_zero]

/-- Claim C6, amended: `std_aqi` is the SAMPLE (`ddof=1`) standard deviation
rounded to 2 decimals — equivalently `√(popVar · n/(n−1))` rounded, exposing
the factor that separates it from the claimed population value — and on a
single reading it is `NaN` (`none`), not `0`. -/
theorem c6_amended :
    (∀ xs : List ℚ, 2 ≤ xs.length →
      std_aqi xs = some (round2R (Real.sqrt
        ((popVar xs * (xs.length : ℚ) / ((xs.length : ℚ) - 1) : ℚ) : ℝ)))) ∧
    (∀ xs : List ℚ, xs.length = 1 → std_aqi xs = none) := by
  constructor
  · intro xs h
    have hn0 : (xs.length : ℚ) ≠ 0 := Nat.cast_ne_zero.mpr (by omega)
    have h2 : (2 : ℚ) ≤ (xs.length : ℚ) := by exact_mod_cast h
    have hn1 : (xs.length : ℚ) - 1 ≠ 0 := by
      intro hc
      have : (xs.length : ℚ) = 1 := by linarith
      linarith
    have hv : sampleVar xs = popVar xs * (xs.length : ℚ) / ((xs.length : ℚ) - 1) := by
      unfold sampleVar popVar
      field_simp
    unfold std_aqi
    rw [if_pos h, hv]
  · intro xs h
    unfold std_aqi
    rw [if_neg (by omega)]

/-- Claim C6, witness: the amended equality applied at `[0, 2]` and the `NaN`
clause applied at `[5]`. -/
theorem c6_witness :
    std_aqi [0, 2] = some (round2R (Real.sqrt
      ((popVar [0, 2] * (2 : ℚ) / ((2 : ℚ) - 1) : ℚ) : ℝ))) ∧
      std_aqi [5] = none := by
  constructor
  · have h := c6_amended.1 [0, 2] (by norm_num)
    simpa using h
  · exact c6_amended.2 [5] (by norm_num)

/-!
## Reading normalizer (`process_real_time_data`, analytics_service.py 506–556)

pandas/DataFrame semantics that matter here:

* a COLUMN exists iff at least one input record carries the key; records
  missing the key then hold `NaN` (embedded `none`) in that column;
* `pd.to_datetime(..., errors='coerce')` turns an unparseable timestamp into
  `NaT` (embedded `none`) — NOT into the ingestion time; the whole column is
  set to "now" only when NO record has a timestamp key;
* `df.sort_values('timestamp')` places `NaT` rows last (`na_position='last'`);
  we model the sort with an insertion sort over the same key order;
* the `aqiValue` derivation runs only when the `aqiValue` COLUMN is absent,
  i.e. when no record in the batch carries `aqiValue`;
* `get_aqi_category(NaN)` fails every range test, yielding the fall-through
  `('Hazardous', '#880000')` — `classifyOpt none` embeds that;
* the timestamp parser (`pd.to_datetime` on one value) and the ingestion clock
  are environment inputs, so they are parameters `parseTs` and `now`.
-/

structure RawRecord where
  timestamp : Option String
  city : Option String
  aqiValue : Option ℚ
  pm25 : Option ℚ
  pm10 : Option ℚ
  no2 : Option ℚ
  so2 : Option ℚ
  co : Option ℚ
  o3 : Option ℚ
  deriving DecidableEq

structure Reading where
  timestamp : Option ℤ
  city : Option String
  aqiValue : Option ℚ
  pm25 : Option ℚ
  pm10 : Option ℚ
  no2 : Option ℚ
  so2 : Option ℚ
  co : Option ℚ
  o3 : Option ℚ
  aqi_category : String
  aqi_color : String
  deriving DecidableEq

/-- `'timestamp' in df.columns`. -/
def hasTimestampCol (rs : List RawRecord) : Bool := rs.any (fun r => r.timestamp.isSome)

/-- `'aqiValue' in df.columns`. -/
def hasAqiCol (rs : List RawRecord) : Bool := rs.any (fun r => r.aqiValue.isSome)

/-- `'pm25' in df.columns`. -/
def hasPm25Col (rs : List RawRecord) : Bool := rs.any (fun r => r.pm25.isSome)

/-- `'city' in df.columns`. -/
def hasCityCol (rs : List RawRecord) : Bool := rs.any (fun r => r.city.isSome)

/-- One record's timestamp cell after lines 522–525: coerced parse when the
column exists (`NaT`/`none` on failure or missing cell), ingestion time when
the whole column is absent. -/
def recordTs (parseTs : String → Option ℤ) (now : ℤ) (hasTs : Bool) (r : RawRecord) :
    Option ℤ :=
  if hasTs then r.timestamp.bind parseTs else some now

/-- `sort_values('timestamp')` key order: `NaT` (`none`) sorts last. -/
def tsLe : Option ℤ → Option ℤ → Bool
  | some a, some b => decide (a ≤ b)
  | some _, none => true
  | none, some _ => false
  | none, none => true

def insertSorted (le : α → α → Bool) (x : α) : List α → List α
  | [] => [x]
  | y :: ys => if le x y then x :: y :: ys else y :: insertSorted le x ys

def sortBy (le : α → α → Bool) (l : List α) : List α := l.foldr (insertSorted le) []

/-- Records annotated with their parsed timestamp cell. -/
def annotateTs (parseTs : String → Option ℤ) (now : ℤ) (rs : List RawRecord) :
    List (RawRecord × Option ℤ) :=
  rs.map (fun r => (r, recordTs parseTs now (hasTimestampCol rs) r))

/-- Lines 529–540: the `aqiValue` cell.  Derivation from `pm25` happens only
when the `aqiValue` COLUMN is absent; with the column present, records lacking
the key keep `NaN` (`none`). -/
def deriveAqi (hasAqi hasPm25 : Bool) (r : RawRecord) : Option ℚ :=
  if hasAqi then r.aqiValue
  else if hasPm25 then
    some (match r.pm25 with
      | some x => ((calculate_aqi_from_pm25 (some x) : ℤ) : ℚ)
      | none => 50)
  else some 50

/-- `get_aqi_category` applied to an `aqiValue` cell; `NaN` fails every range
test and lands in the fall-through. -/
def classifyOpt : Option ℚ → String × String
  | some v => get_aqi_category v
  | none => ("Hazardous", "#880000")

/-- Lines 529–552 applied to one sorted, timestamp-annotated record. -/
def finalizeRecord (hasAqi hasPm25 hasCity : Bool) (p : RawRecord × Option ℤ) : Reading :=
  { timestamp := p.2,
    city := if hasCity then p.1.city else some "Unknown",
    aqiValue := deriveAqi hasAqi hasPm25 p.1,
    pm25 := p.1.pm25,
    pm10 := p.1.pm10,
    no2 := p.1.no2,
    so2 := p.1.so2,
    co := p.1.co,
    o3 := p.1.o3,
    aqi_category := (classifyOpt (deriveAqi hasAqi hasPm25 p.1)).1,
    aqi_color := (classifyOpt (deriveAqi hasAqi hasPm25 p.1)).2 }

/-- `process_real_time_data(data_input)` on an already-decoded record list:
timestamp coercion, sort by timestamp, required-column defaults, pollutant
passthrough, classification. -/
def process_real_time_data (parseTs : String → Option ℤ) (now : ℤ)
    (rs : List RawRecord) : List Reading :=
  (sortBy (fun a b => tsLe a.2 b.2) (annotateTs parseTs now rs)).map
    (finalizeRecord (hasAqiCol rs) (hasPm25Col rs) (hasCityCol rs))

lemma mem_insertSorted (le : α → α → Bool) (x a : α) :
    ∀ l : List α, a ∈ insertSorted le x l ↔ a = x ∨ a ∈ l := by
  intro l
  induction l with
  | nil => simp [insertSorted]
  | cons y ys ih =>
    unfold insertSorted
    by_cases h : le x y
    · rw [if_pos h]
      simp
    · rw [if_neg h]
      simp only [List.mem_cons, ih]
      tauto

lemma mem_sortBy (le : α → α → Bool) (a : α) :
    ∀ l : List α, a ∈ sortBy le l ↔ a ∈ l := by
  intro l
  induction l with
  | nil => simp [sortBy]
  | cons y ys ih =>
    show a ∈ insertSorted le y (sortBy le ys) ↔ _
    rw [mem_insertSorted]
    simp only [List.mem_cons]
    rw [ih]

lemma insertSorted_append_last (le : α → α → Bool) (x z : α) (hxz : le x z = true) :
    ∀ m : List α, insertSorted le x (m ++ [z]) = insertSorted le x m ++ [z] := by
  intro m
  induction m with
  | nil => simp [insertSorted, hxz]
  | cons y ys ih =>
    simp only [List.cons_append, insertSorted]
    split_ifs
    · simp
    · simp [ih]

lemma insertSorted_max (le : α → α → Bool) (z : α) :
    ∀ m : List α, (∀ y ∈ m, le z y = false) → insertSorted le z m = m ++ [z] := by
  intro m
  induction m with
  | nil => intro _; rfl
  | cons y ys ih =>
    intro h
    unfold insertSorted
    rw [if_neg (by simp [h y (by simp)]), ih (fun y hy => h y (by simp [hy]))]
    simp

lemma sortBy_middle_max (le : α → α → Bool) (z : α) :
    ∀ l1 l2 : List α,
      (∀ y ∈ l1 ++ l2, le z y = false ∧ le y z = true) →
      sortBy le (l1 ++ z :: l2) = sortBy le (l1 ++ l2) ++ [z] := by
  intro l1
  induction l1 with
  | nil =>
    intro l2 h
    show insertSorted le z (sortBy le l2) = sortBy le l2 ++ [z]
    refine insertSorted_max le z (sortBy le l2) ?_
    intro y hy
    exact (h y (by simpa using (mem_sortBy le y l2).mp hy)).1
  | cons p l1 ih =>
    intro l2 h
    show insertSorted le p (sortBy le (l1 ++ z :: l2)) = _
    rw [ih l2 (fun y hy => h y (by simp [List.mem_append] at hy ⊢; tauto))]
    rw [insertSorted_append_last le p z (h p (by simp)).2]
    rfl

/-!
## Claims C3 and C4 — the normalizer
-/

/-- A concrete timestamp parser for the concrete instances: `"t1" ↦ 1`,
`"t2" ↦ 2`, everything else unparseable. -/
def parseTsExample (s : String) : Option ℤ :=
  if s = "t1" then some 1 else if s = "t2" then some 2 else none

/-- A record whose timestamp parses to `1`. -/
def rawT1 : RawRecord := ⟨some "t1", none, none, none, none, none, none, none, none⟩

/-- A record whose timestamp parses to `2`. -/
def rawT2 : RawRecord := ⟨some "t2", none, none, none, none, none, none, none, none⟩

/-- A record with an unparseable timestamp string. -/
def rawBad : RawRecord := ⟨some "zzz", none, none, none, none, none, none, none, none⟩

/-- A record carrying only `aqiValue = 100`. -/
def rawWithAqi : RawRecord := ⟨none, none, some 100, none, none, none, none, none, none⟩

/-- A record carrying only `pm25 = 5`. -/
def rawWithPm : RawRecord := ⟨none, none, none, some 5, none, none, none, none, none⟩

/-- Claim C3, counterexample: with ingestion time `999`, the record whose
timestamp string does not parse comes out with timestamp `none` (`NaT`), sorted
last — NOT defaulted to the ingestion time `999` as the claim states. -/
theorem c3_counterexample :
    (process_real_time_data parseTsExample 999 [rawT2, rawBad, rawT1]).map
        (fun o => o.timestamp) = [some 1, some 2, none] ∧
      (none : Option ℤ) ≠ some 999 := by
  exact ⟨rfl, by simp⟩

/-- Claim C4, counterexample: in a batch where ANOTHER record carries
`aqiValue`, the record lacking `aqiValue` but carrying `pm25 = 5` gets a
missing AQI (`none`), not the converter value `21` the claim requires. -/
theorem c4_counterexample :
    (process_real_time_data parseTsExample 0 [rawWithAqi, rawWithPm]).map
        (fun o => o.aqiValue) = [some 100, none] ∧
      calculate_aqi_from_pm25 (some 5) = 21 ∧
      (none : Option ℚ) ≠ some ((21 : ℤ) : ℚ) := by
  refine ⟨rfl, ?_, by simp⟩
  rw [aqi_band1 (by norm_num) (by norm_num), show (21 : ℤ) = 20 + 1 by norm_num]
  exact @pythonRound_eq_of_gt_half _ 20 (by norm_num) (by norm_num)

/-- Claim C4, amended: the per-record derivation `aqiValue := pm25-converter
(else 50)` happens only when NO record in the batch carries `aqiValue` (the
check is on the DataFrame column, not per record); under that hypothesis every
normalized record's AQI is derived from its own `pm25` when present and
defaults to `50` otherwise.  When some record does carry `aqiValue`, records
lacking it keep a missing value (see the counterexample). -/
theorem c4_amended (parseTs : String → Option ℤ) (now : ℤ) (rs : List RawRecord)
    (h : ∀ r ∈ rs, r.aqiValue = none) :
    ∀ o ∈ process_real_time_data parseTs now rs, ∃ r ∈ rs,
      o.pm25 = r.pm25 ∧
      o.aqiValue = some (match r.pm25 with
        | some x => ((calculate_aqi_from_pm25 (some x) : ℤ) : ℚ)
        | none => 50) := by
  intro o ho
  unfold process_real_time_data at ho
  obtain ⟨p, hp, rfl⟩ := List.mem_map.mp ho
  have hp2 := (mem_sortBy _ _ _).mp hp
  obtain ⟨r, hr, rfl⟩ := List.mem_map.mp hp2
  have hA : hasAqiCol rs = false := by
    unfold hasAqiCol
    rw [List.any_eq_false]
    intro r2 hr2
    simp [h r2 hr2]
  refine ⟨r, hr, rfl, ?_⟩
  show deriveAqi (hasAqiCol rs) (hasPm25Col rs) r = _
  rw [hA]
  unfold deriveAqi
  rw [if_neg (by simp)]
  by_cases hPm : hasPm25Col rs = true
  · rw [hPm, if_pos rfl]
  · have hPm2 : hasPm25Col rs = false := by simpa using hPm
    have hrpm : r.pm25 = none := by
      unfold hasPm25Col at hPm2
      rw [List.any_eq_false] at hPm2
      have := hPm2 r hr
      simpa using this
    rw [hPm2, if_neg (by simp), hrpm]

/-- Claim C4, witness: the amended derivation applied to the singleton batch
`[rawWithPm]` (no record carries `aqiValue`), whose one normalized record is
`finalizeRecord false true false (rawWithPm, some 0)`. -/
theorem c4_witness :
    ∃ r ∈ [rawWithPm],
      (finalizeRecord false true false (rawWithPm, some 0)).pm25 = r.pm25 ∧
      (finalizeRecord false true false (rawWithPm, some 0)).aqiValue
        = some (match r.pm25 with
            | some x => ((calculate_aqi_from_pm25 (some x) : ℤ) : ℚ)
            | none => 50) :=
  c4_amended parseTsExample 0 [rawWithPm] (by intro r hr; fin_cases hr; rfl)
    (finalizeRecord false true false (rawWithPm, some 0))
    (by
      rw [show process_real_time_data parseTsExample 0 [rawWithPm]
        = [finalizeRecord false true false (rawWithPm, some 0)] from rfl]
      exact List.mem_singleton.mpr rfl)

/-- Claim C3, amended: normalization never fails on an unparseable timestamp —
but the bad record's timestamp becomes missing (`NaT`/`none`), NOT the
ingestion time, and the record is sorted to the end; every other record (all
parseable, and carrying every `aqiValue`/`pm25`/`city` key the bad record
carries, so the bad record creates no new column) is normalized exactly as it
would be in the batch without the bad record. -/
theorem c3_amended (parseTs : String → Option ℤ) (now : ℤ) (pre post : List RawRecord)
    (bad : RawRecord) (s : String)
    (hbs : bad.timestamp = some s) (hbad : parseTs s = none)
    (hothers : ∀ r ∈ pre ++ post, ∃ t u, r.timestamp = some t ∧ parseTs t = some u)
    (haq : bad.aqiValue.isSome = true → (pre ++ post).any (fun r => r.aqiValue.isSome) = true)
    (hpm : bad.pm25.isSome = true → (pre ++ post).any (fun r => r.pm25.isSome) = true)
    (hct : bad.city.isSome = true → (pre ++ post).any (fun r => r.city.isSome) = true) :
    process_real_time_data parseTs now (pre ++ bad :: post)
      = process_real_time_data parseTs now (pre ++ post)
        ++ [finalizeRecord (hasAqiCol (pre ++ bad :: post)) (hasPm25Col (pre ++ bad :: post))
              (hasCityCol (pre ++ bad :: post)) (bad, none)] ∧
    (finalizeRecord (hasAqiCol (pre ++ bad :: post)) (hasPm25Col (pre ++ bad :: post))
        (hasCityCol (pre ++ bad :: post)) (bad, none)).timestamp = none := by
  refine ⟨?_, rfl⟩
  have hTfull : hasTimestampCol (pre ++ bad :: post) = true := by
    unfold hasTimestampCol
    rw [List.any_eq_true]
    exact ⟨bad, by simp, by simp [hbs]⟩
  have hann_full : annotateTs parseTs now (pre ++ bad :: post)
      = pre.map (fun r => (r, r.timestamp.bind parseTs)) ++ (bad, none)
        :: post.map (fun r => (r, r.timestamp.bind parseTs)) := by
    simp [annotateTs, recordTs, hTfull, hbs, hbad]
  have hann_others : annotateTs parseTs now (pre ++ post)
      = pre.map (fun r => (r, r.timestamp.bind parseTs))
        ++ post.map (fun r => (r, r.timestamp.bind parseTs)) := by
    by_cases hne : pre ++ post = []
    · obtain ⟨hp, hq⟩ := List.append_eq_nil.mp hne
      subst hp
      subst hq
      rfl
    · have hT : hasTimestampCol (pre ++ post) = true := by
        obtain ⟨r, hr⟩ := List.exists_mem_of_ne_nil _ hne
        obtain ⟨t, u, hts, -⟩ := hothers r hr
        unfold hasTimestampCol
        rw [List.any_eq_true]
        exact ⟨r, hr, by simp [hts]⟩
      simp [annotateTs, recordTs, hT]
  have hsort : sortBy (fun a b : RawRecord × Option ℤ => tsLe a.2 b.2)
      (pre.map (fun r => (r, r.timestamp.bind parseTs)) ++ (bad, none)
        :: post.map (fun r => (r, r.timestamp.bind parseTs)))
      = sortBy (fun a b : RawRecord × Option ℤ => tsLe a.2 b.2)
          (pre.map (fun r => (r, r.timestamp.bind parseTs))
            ++ post.map (fun r => (r, r.timestamp.bind parseTs))) ++ [(bad, none)] := by
    apply sortBy_middle_max
    intro y hy
    rw [← List.map_append] at hy
    obtain ⟨r, hr, rfl⟩ := List.mem_map.mp hy
    obtain ⟨t, u, hts, htu⟩ := hothers r hr
    constructor
    · simp [hts, htu, tsLe]
    · simp [hts, htu, tsLe]
  have hA : hasAqiCol (pre ++ bad :: post) = hasAqiCol (pre ++ post) := by
    unfold hasAqiCol
    cases hb : bad.aqiValue.isSome with
    | false => simp [List.any_append, List.any_cons, hb]
    | true =>
      have h2 := haq hb
      simp only [List.any_append, List.any_cons, hb] at h2 ⊢
      simp only [Bool.true_or, Bool.or_true]
      exact h2.symm
  have hP : hasPm25Col (pre ++ bad :: post) = hasPm25Col (pre ++ post) := by
    unfold hasPm25Col
    cases hb : bad.pm25.isSome with
    | false => simp [List.any_append, List.any_cons, hb]
    | true =>
      have h2 := hpm hb
      simp only [List.any_append, List.any_cons, hb] at h2 ⊢
      simp only [Bool.true_or, Bool.or_true]
      exact h2.symm
  have hC : hasCityCol (pre ++ bad :: post) = hasCityCol (pre ++ post) := by
    unfold hasCityCol
    cases hb : bad.city.isSome with
    | false => simp [List.any_append, List.any_cons, hb]
    | true =>
      have h2 := hct hb
      simp only [List.any_append, List.any_cons, hb] at h2 ⊢
      simp only [Bool.true_or, Bool.or_true]
      exact h2.symm
  unfold process_real_time_data
  rw [hann_full, hsort, hann_others, List.map_append, hA, hP, hC]
  rfl

/-- Claim C3, witness: the amended statement applied to the concrete batch
`[rawT1, rawBad, rawT2]` with ingestion time `999`. -/
theorem c3_witness :
    process_real_time_data parseTsExample 999 ([rawT1] ++ rawBad :: [rawT2])
      = process_real_time_data parseTsExample 999 ([rawT1] ++ [rawT2])
        ++ [finalizeRecord (hasAqiCol ([rawT1] ++ rawBad :: [rawT2]))
              (hasPm25Col ([rawT1] ++ rawBad :: [rawT2]))
              (hasCityCol ([rawT1] ++ rawBad :: [rawT2])) (rawBad, none)] ∧
    (finalizeRecord (hasAqiCol ([rawT1] ++ rawBad :: [rawT2]))
        (hasPm25Col ([rawT1] ++ rawBad :: [rawT2]))
        (hasCityCol ([rawT1] ++ rawBad :: [rawT2])) (rawBad, none)).timestamp = none :=
  c3_amended parseTsExample 999 [rawT1] [rawT2] rawBad "zzz" rfl rfl
    (by
      intro r hr
      fin_cases hr
      · exact ⟨"t1", 1, rfl, rfl⟩
      · exact ⟨"t2", 2, rfl, rfl⟩)
    (by intro h; simp [rawBad] at h)
    (by intro h; simp [rawBad] at h)
    (by intro h; simp [rawBad] at h)

/-!
## Claim C2 — the data-availability resolver
(`check_city_and_data_availability` and `fetch_data_from_database`,
database_analytics.py 83–201)

The stored table `aqi_data` is a list of rows; the three SQL queries are
embedded as list filters/aggregates over it:

* `SELECT COUNT(*), MIN(timestamp), MAX(timestamp) ... WHERE city = %s`
  → `cityRows` length / `min?` / `max?`;
* `SELECT COUNT(*) ... WHERE city = %s AND timestamp BETWEEN %s AND %s`
  → `periodRows` length (SQL `BETWEEN` is inclusive);
* the full data query `SELECT ... WHERE city = %s [AND timestamp BETWEEN …]
  ORDER BY timestamp` → `sortBy rowLe` of the corresponding filter.

`fetch_data_from_database` raises (here: `Except.error`) on scenario 3 BEFORE
any full data query is built, mirroring the early `raise`.
-/

structure AqiRow where
  city : String
  aqi_value : ℚ
  pm25 : Option ℚ
  pm10 : Option ℚ
  no2 : Option ℚ
  so2 : Option ℚ
  co : Option ℚ
  o3 : Option ℚ
  timestamp : ℤ
  deriving DecidableEq

/-- The `data_info` dict returned beside the scenario number. -/
structure DataInfo where
  message : String
  records_in_period : Option ℕ
  earliest_data : Option ℤ
  latest_data : Option ℤ
  total_records : Option ℕ
  deriving DecidableEq

/-- `WHERE city = %s`. -/
def cityRows (db : List AqiRow) (city_name : String) : List AqiRow :=
  db.filter (fun r => decide (r.city = city_name))

/-- `WHERE city = %s AND timestamp BETWEEN %s AND %s` (inclusive). -/
def periodRows (db : List AqiRow) (city_name : String) (s e : ℤ) : List AqiRow :=
  (cityRows db city_name).filter (fun r => decide (s ≤ r.timestamp) && decide (r.timestamp ≤ e))

/-- `ORDER BY timestamp`. -/
def rowLe (a b : AqiRow) : Bool := decide (a.timestamp ≤ b.timestamp)

/-- `check_city_and_data_availability(city_name, start_date, end_date)`:
the ordered two-query scenario resolution. -/
def check_city_and_data_availability (db : List AqiRow) (city_name : String)
    (s e : ℤ) : ℕ × DataInfo :=
  if (cityRows db city_name).length = 0 then
    (3, ⟨"City '" ++ city_name ++ "' not found in database", none, none, none, none⟩)
  else if 0 < (periodRows db city_name s e).length then
    (1, ⟨"Data available for " ++ city_name ++ " in requested period",
      some (periodRows db city_name s e).length,
      ((cityRows db city_name).map (fun r => r.timestamp)).min?,
      ((cityRows db city_name).map (fun r => r.timestamp)).max?, none⟩)
  else
    (2, ⟨"City '" ++ city_name ++ "' exists but no data for requested period",
      none,
      ((cityRows db city_name).map (fun r => r.timestamp)).min?,
      ((cityRows db city_name).map (fun r => r.timestamp)).max?,
      some (cityRows db city_name).length⟩)

/-- `fetch_data_from_database(city_name, start_date, end_date)` with an already
resolved window: scenario 3 raises before the data query; scenario 1 fetches
the requested window; otherwise the city's entire stored range is fetched; an
empty result raises. -/
def fetch_data_from_database (db : List AqiRow) (city_name : String)
    (s e : ℤ) : Except String (List AqiRow × ℕ × DataInfo) :=
  if (check_city_and_data_availability db city_name s e).1 = 3 then
    Except.error ("City '" ++ city_name ++ "' not found in database. "
      ++ (check_city_and_data_availability db city_name s e).2.message)
  else if (check_city_and_data_availability db city_name s e).1 = 1 then
    if (sortBy rowLe (periodRows db city_name s e)).isEmpty then
      Except.error ("No data found for city '" ++ city_name ++ "'")
    else
      Except.ok (sortBy rowLe (periodRows db city_name s e),
        (check_city_and_data_availability db city_name s e).1,
        (check_city_and_data_availability db city_name s e).2)
  else
    if (sortBy rowLe (cityRows db city_name)).isEmpty then
      Except.error ("No data found for city '" ++ city_name ++ "'")
    else
      Except.ok (sortBy rowLe (cityRows db city_name),
        (check_city_and_data_availability db city_name s e).1,
        (check_city_and_data_availability db city_name s e).2)

/-- Claim C2 (confirmed): the resolver yields exactly one of three mutually
exclusive outcomes, evaluated in order.  City unknown → scenario 3 and
`fetch` stops with an error (no data query); at least one of the city's stored
timestamps in `[s, e]` → scenario 1 with exactly the requested window as the
effective query range; city known but window empty → scenario 2, the effective
range is the city's ENTIRE stored data, and the scenario number in the result
makes the substitution visible to the caller. -/
theorem c2_resolver_three_scenarios :
    ∀ (db : List AqiRow) (city : String) (s e : ℤ),
      ((check_city_and_data_availability db city s e).1 = 1 ∨
        (check_city_and_data_availability db city s e).1 = 2 ∨
        (check_city_and_data_availability db city s e).1 = 3) ∧
      ((¬ ∃ r ∈ db, r.city = city) →
        (check_city_and_data_availability db city s e).1 = 3 ∧
        ∃ msg, fetch_data_from_database db city s e = Except.error msg) ∧
      ((∃ r ∈ db, r.city = city ∧ s ≤ r.timestamp ∧ r.timestamp ≤ e) →
        (check_city_and_data_availability db city s e).1 = 1 ∧
        ∃ info : DataInfo, fetch_data_from_database db city s e
          = Except.ok (sortBy rowLe (periodRows db city s e), 1, info)) ∧
      (((∃ r ∈ db, r.city = city) ∧
          ¬ ∃ r ∈ db, r.city = city ∧ s ≤ r.timestamp ∧ r.timestamp ≤ e) →
        (check_city_and_data_availability db city s e).1 = 2 ∧
        ∃ info : DataInfo, fetch_data_from_database db city s e
          = Except.ok (sortBy rowLe (cityRows db city), 2, info)) := by
  intro db city s e
  refine ⟨?_, ?_, ?_, ?_⟩
  · unfold check_city_and_data_availability
    split_ifs <;> simp
  · intro h
    have hcr : cityRows db city = [] := by
      unfold cityRows
      rw [List.filter_eq_nil_iff]
      intro r hr
      simp only [decide_eq_true_eq]
      exact fun hc => h ⟨r, hr, hc⟩
    have hch : (check_city_and_data_availability db city s e).1 = 3 := by
      unfold check_city_and_data_availability
      rw [if_pos (by rw [hcr]; rfl)]
    refine ⟨hch, ?_⟩
    unfold fetch_data_from_database
    rw [if_pos hch]
    exact ⟨_, rfl⟩
  · rintro ⟨r, hr, hc, hs, he⟩
    have hmemc : r ∈ cityRows db city := by
      unfold cityRows
      rw [List.mem_filter]
      exact ⟨hr, by simp [hc]⟩
    have hmemp : r ∈ periodRows db city s e := by
      unfold periodRows
      rw [List.mem_filter]
      exact ⟨hmemc, by simp [hs, he]⟩
    have hch : (check_city_and_data_availability db city s e).1 = 1 := by
      unfold check_city_and_data_availability
      rw [if_neg, if_pos]
      · exact List.length_pos.mpr (List.ne_nil_of_mem hmemp)
      · simp [List.length_eq_zero]
        exact List.ne_nil_of_mem hmemc
    refine ⟨hch, ?_⟩
    have hnn : sortBy rowLe (periodRows db city s e) ≠ [] :=
      List.ne_nil_of_mem ((mem_sortBy rowLe r (periodRows db city s e)).mpr hmemp)
    have hepi : (sortBy rowLe (periodRows db city s e)).isEmpty = false := by
      rcases hcase : sortBy rowLe (periodRows db city s e) with - | ⟨a, l⟩
      · exact absurd hcase hnn
      · rfl
    unfold fetch_data_from_database
    rw [hch]
    rw [if_neg (by norm_num), if_pos rfl, if_neg (by simp [hepi])]
    exact ⟨_, rfl⟩
  · rintro ⟨⟨r, hr, hc⟩, hno⟩
    have hmemc : r ∈ cityRows db city := by
      unfold cityRows
      rw [List.mem_filter]
      exact ⟨hr, by simp [hc]⟩
    have hpr : periodRows db city s e = [] := by
      unfold periodRows
      rw [List.filter_eq_nil_iff]
      intro r2 hr2
      rw [cityRows, List.mem_filter] at hr2
      simp only [Bool.and_eq_true, decide_eq_true_eq, not_and]
      intro hs2 he2
      exact hno ⟨r2, hr2.1, by simpa using hr2.2, hs2, he2⟩
    have hch : (check_city_and_data_availability db city s e).1 = 2 := by
      unfold check_city_and_data_availability
      rw [if_neg, if_neg]
      · rw [hpr]
        simp
      · simp [List.length_eq_zero]
        exact List.ne_nil_of_mem hmemc
    refine ⟨hch, ?_⟩
    have hnn : sortBy rowLe (cityRows db city) ≠ [] :=
      List.ne_nil_of_mem ((mem_sortBy rowLe r (cityRows db city)).mpr hmemc)
    have hepi : (sortBy rowLe (cityRows db city)).isEmpty = false := by
      rcases hcase : sortBy rowLe (cityRows db city) with - | ⟨a, l⟩
      · exact absurd hcase hnn
      · rfl
    unfold fetch_data_from_database
    rw [hch]
    rw [if_neg (by norm_num), if_neg (by norm_num), if_neg (by simp [hepi])]
    exact ⟨_, rfl⟩

/-- One stored reading for the concrete resolver instances: city `"Delhi"`,
AQI `100`, timestamp `10`. -/
def rowDelhi : AqiRow := ⟨"Delhi", 100, none, none, none, none, none, none, 10⟩

/-- Claim C2, witness: the three scenarios exercised on the one-row table —
unknown city `"Paris"`; `"Delhi"` with window `[0, 20]` containing the stored
timestamp; `"Delhi"` with empty window `[100, 200]`. -/
theorem c2_witness :
    ((check_city_and_data_availability [rowDelhi] "Paris" 0 20).1 = 3 ∧
      ∃ msg, fetch_data_from_database [rowDelhi] "Paris" 0 20 = Except.error msg) ∧
    ((check_city_and_data_availability [rowDelhi] "Delhi" 0 20).1 = 1 ∧
      ∃ info : DataInfo, fetch_data_from_database [rowDelhi] "Delhi" 0 20
        = Except.ok (sortBy rowLe (periodRows [rowDelhi] "Delhi" 0 20), 1, info)) ∧
    ((check_city_and_data_availability [rowDelhi] "Delhi" 100 200).1 = 2 ∧
      ∃ info : DataInfo, fetch_data_from_database [rowDelhi] "Delhi" 100 200
        = Except.ok (sortBy rowLe (cityRows [rowDelhi] "Delhi"), 2, info)) :=
  ⟨(c2_resolver_three_scenarios [rowDelhi] "Paris" 0 20).2.1 (by decide),
    (c2_resolver_three_scenarios [rowDelhi] "Delhi" 0 20).2.2.1
      ⟨rowDelhi, by decide, by decide, by decide, by decide⟩,
    (c2_resolver_three_scenarios [rowDelhi] "Delhi" 100 200).2.2.2
      ⟨⟨rowDelhi, by decide, by decide⟩, by decide⟩⟩
